import Mathlib

/-!
Verification of the dify-client-python streaming protocol layer.

The definitions below are a shallow embedding of the repository source:
  - dify_client/utils/_common.py    (str_to_enum)
  - dify_client/models/stream.py    (StreamEvent, the stream response models,
                                     the three per-family dispatch tables and builders)
  - dify_client/models/base.py      (ErrorResponse, Metadata, Usage, ...)
  - dify_client/models/workflow.py  (workflow data models)
  - dify_client/errors.py           (error taxonomy and raise_for_status)
  - dify_client/_clientx.py         (request_stream pipeline, auth headers,
                                     content type guard)

JSON payloads are modelled by the inductive `Json` below; JSON numbers are
modelled as integers (no claim depends on fractional values), and fields
declared `float` in the source accept a numeric value.  Pydantic lax
coercions between primitive kinds (for example a digit string accepted for
an int field) are not modelled: a payload field is well formed when it is
of the declared primitive kind.
-/

/-- A JSON value as delivered to the decoding layer. -/
inductive Json where
  | null
  | bool (b : Bool)
  | num (n : Int)
  | str (s : String)
  | arr (elems : List Json)
  | obj (fields : List (String × Json))

/-- A JSON object: association list of fields, unique keys, insertion order. -/
abbrev JsonObj := List (String × Json)

/-- Field lookup, mirroring Python dict access: first (only) matching key. -/
def JsonObj.lookup (d : JsonObj) (k : String) : Option Json :=
  List.lookup k d

/-- The Python repr of a value interpolated into a ValueError message
    (`None` for the absent or null value, the text itself for a string). -/
def pyRepr : Option Json → String
  | none => "None"
  | some .null => "None"
  | some (.bool true) => "True"
  | some (.bool false) => "False"
  | some (.num n) => toString n
  | some (.str s) => s
  | some (.arr _) => "<list>"
  | some (.obj _) => "<dict>"

/-- Python equality between an arbitrary JSON-decoded value and a `str`
    enum member value: true only when the value is that very string. -/
def jsonEqStr : Option Json → String → Bool
  | some (.str s), v => s == v
  | _, _ => false

/-!  ## utils/_common.py : str_to_enum

`str_to_enum` scans the enumeration members in declaration order and returns
the first member whose declared value compares equal (Python `==`) to the
input value; otherwise it raises `ValueError` carrying the offending value,
unless `ignore_not_found` is set, in which case `enum_default` is returned.
The comparison and the rendering of the offending value are passed in
explicitly because Python `==` is heterogeneous.  -/

def str_to_enum {α β : Type} (beq : β → String → Bool) (render : β → String)
    (members : List α) (value : α → String) (str_value : β)
    (ignore_not_found : Bool) (enum_default : Option α) : Except String (Option α) :=
  match members.find? (fun m => beq str_value (value m)) with
  | some m => .ok (some m)
  | none =>
    if ignore_not_found then .ok enum_default
    else .error (render str_value)

/-!  ## models/stream.py : StreamEvent -/

/-- The closed enumeration of stream event discriminator tags. -/
inductive StreamEvent where
  | message
  | agent_message
  | agent_thought
  | message_file
  | workflow_started
  | node_started
  | node_finished
  | workflow_finished
  | message_end
  | message_replace
  | error
  | ping
deriving DecidableEq, Repr

/-- The declared string value of each member. -/
def StreamEvent.value : StreamEvent → String
  | .message => "message"
  | .agent_message => "agent_message"
  | .agent_thought => "agent_thought"
  | .message_file => "message_file"
  | .workflow_started => "workflow_started"
  | .node_started => "node_started"
  | .node_finished => "node_finished"
  | .workflow_finished => "workflow_finished"
  | .message_end => "message_end"
  | .message_replace => "message_replace"
  | .error => "error"
  | .ping => "ping"

/-- The members in declaration order (Python `__members__` iteration order). -/
def StreamEvent.members : List StreamEvent :=
  [.message, .agent_message, .agent_thought, .message_file, .workflow_started,
   .node_started, .node_finished, .workflow_finished, .message_end,
   .message_replace, .error, .ping]

/-- `StreamEvent.new`: if the argument is already a member return it,
    otherwise resolve it strictly through `str_to_enum`.  The right summand
    is any other Python value as decoded from JSON (`none` is Python None,
    for example from `dict.get` on an absent key).  Strict resolution never
    returns the tolerant default, so the middle branch is unreachable. -/
def StreamEvent.new (event : StreamEvent ⊕ Option Json) : Except String StreamEvent :=
  match event with
  | .inl e => .ok e
  | .inr v =>
    match str_to_enum jsonEqStr pyRepr StreamEvent.members StreamEvent.value v false none with
    | .ok (some m) => .ok m
    | .ok none => .error (pyRepr v)
    | .error e => .error e

/-!  ## Pydantic field validation combinators

Each combinator reads one declared field from the payload object and
validates it, mirroring pydantic v2 behaviour for the corresponding
annotation.  `req` prefixed names are required fields, `D` suffixed names
take the declared default used when the field is absent.  `reqOpt` names
are fields annotated `Optional[...]` with no default: the key must be
present but the value may be null.  -/

/-- Required `str` field. -/
def reqStr (d : JsonObj) (k : String) : Except String String :=
  match d.lookup k with
  | some (.str s) => .ok s
  | some _ => .error (k ++ ": Input should be a valid string")
  | none => .error (k ++ ": Field required")

/-- Required `int` field. -/
def reqInt (d : JsonObj) (k : String) : Except String Int :=
  match d.lookup k with
  | some (.num n) => .ok n
  | some _ => .error (k ++ ": Input should be a valid integer")
  | none => .error (k ++ ": Field required")

/-- `Optional[str]` field with a default. -/
def optStrD (d : JsonObj) (k : String) (dflt : Option String) : Except String (Option String) :=
  match d.lookup k with
  | none => .ok dflt
  | some .null => .ok none
  | some (.str s) => .ok (some s)
  | some _ => .error (k ++ ": Input should be a valid string")

/-- `Optional[int]` field with a default. -/
def optIntD (d : JsonObj) (k : String) (dflt : Option Int) : Except String (Option Int) :=
  match d.lookup k with
  | none => .ok dflt
  | some .null => .ok none
  | some (.num n) => .ok (some n)
  | some _ => .error (k ++ ": Input should be a valid integer")

/-- `str` field with a (non optional) default: null is rejected. -/
def strD (d : JsonObj) (k : String) (dflt : String) : Except String String :=
  match d.lookup k with
  | none => .ok dflt
  | some (.str s) => .ok s
  | some _ => .error (k ++ ": Input should be a valid string")

/-- `int` field with a (non optional) default: null is rejected. -/
def intD (d : JsonObj) (k : String) (dflt : Int) : Except String Int :=
  match d.lookup k with
  | none => .ok dflt
  | some (.num n) => .ok n
  | some _ => .error (k ++ ": Input should be a valid integer")

/-- `Optional[str]` with no default: the key is required, null allowed. -/
def reqOptStr (d : JsonObj) (k : String) : Except String (Option String) :=
  match d.lookup k with
  | none => .error (k ++ ": Field required")
  | some .null => .ok none
  | some (.str s) => .ok (some s)
  | some _ => .error (k ++ ": Input should be a valid string")

/-- `Optional[int]` with no default: the key is required, null allowed. -/
def reqOptInt (d : JsonObj) (k : String) : Except String (Option Int) :=
  match d.lookup k with
  | none => .error (k ++ ": Field required")
  | some .null => .ok none
  | some (.num n) => .ok (some n)
  | some _ => .error (k ++ ": Input should be a valid integer")

/-- `Optional[float]` with no default; a numeric value is accepted. -/
def reqOptNum (d : JsonObj) (k : String) : Except String (Option Int) :=
  match d.lookup k with
  | none => .error (k ++ ": Field required")
  | some .null => .ok none
  | some (.num n) => .ok (some n)
  | some _ => .error (k ++ ": Input should be a valid number")

/-- Required `float` field; a numeric value is accepted. -/
def reqNum (d : JsonObj) (k : String) : Except String Int :=
  match d.lookup k with
  | some (.num n) => .ok n
  | some _ => .error (k ++ ": Input should be a valid number")
  | none => .error (k ++ ": Field required")

/-- `Optional[dict]` field with a default. -/
def optDictD (d : JsonObj) (k : String) (dflt : Option JsonObj) : Except String (Option JsonObj) :=
  match d.lookup k with
  | none => .ok dflt
  | some .null => .ok none
  | some (.obj fields) => .ok (some fields)
  | some _ => .error (k ++ ": Input should be a valid dictionary")

/-- `Optional[dict]` with no default: the key is required, null allowed. -/
def reqOptDict (d : JsonObj) (k : String) : Except String (Option JsonObj) :=
  match d.lookup k with
  | none => .error (k ++ ": Field required")
  | some .null => .ok none
  | some (.obj fields) => .ok (some fields)
  | some _ => .error (k ++ ": Input should be a valid dictionary")

/-- `dict` field with a (non optional) default: null is rejected. -/
def dictD (d : JsonObj) (k : String) (dflt : JsonObj) : Except String JsonObj :=
  match d.lookup k with
  | none => .ok dflt
  | some (.obj fields) => .ok fields
  | some _ => .error (k ++ ": Input should be a valid dictionary")

/-- Untyped `List` field with a default: any JSON array is accepted. -/
def listAnyD (d : JsonObj) (k : String) (dflt : List Json) : Except String (List Json) :=
  match d.lookup k with
  | none => .ok dflt
  | some (.arr elems) => .ok elems
  | some _ => .error (k ++ ": Input should be a valid list")

/-- Validate each array element as a string. -/
def strElems (k : String) : List Json → Except String (List String)
  | [] => .ok []
  | .str s :: rest => (strElems k rest).map (s :: ·)
  | _ :: _ => .error (k ++ ": Input should be a valid string")

/-- `List[str]` field with a default. -/
def listStrD (d : JsonObj) (k : String) (dflt : List String) : Except String (List String) :=
  match d.lookup k with
  | none => .ok dflt
  | some (.arr elems) => strElems k elems
  | some _ => .error (k ++ ": Input should be a valid list")

/-- The inherited `event` field of every stream response model: required,
    passed through the `transform_stream_event` before-validator, which
    applies `StreamEvent.new` to the raw value. -/
def reqEvent (d : JsonObj) : Except String StreamEvent :=
  match d.lookup "event" with
  | none => .error "event: Field required"
  | some v => StreamEvent.new (.inr (some v))

/-- The extra fields kept by a model with `extra` set to allow: every
    payload entry whose key is not a declared field name. -/
def extrasOutside (names : List String) (d : JsonObj) : JsonObj :=
  d.filter (fun kv => !(names.contains kv.1))

/-!  ## models/base.py and models/workflow.py : nested payload models

These models use the pydantic default of ignoring undeclared fields, so no
extra bucket is kept.  Fields annotated `float` are modelled with the
numeric JSON carrier.  -/

structure Usage where
  prompt_tokens : Int
  completion_tokens : Int
  total_tokens : Int
  prompt_unit_price : String
  prompt_price_unit : String
  prompt_price : String
  completion_unit_price : String
  completion_price_unit : String
  completion_price : String
  total_price : String
  currency : String
  latency : Int

def Usage.parse (d : JsonObj) : Except String Usage := do
  let pt ← reqInt d "prompt_tokens"
  let ct ← reqInt d "completion_tokens"
  let tt ← reqInt d "total_tokens"
  let pup ← reqStr d "prompt_unit_price"
  let ppu ← reqStr d "prompt_price_unit"
  let pp ← reqStr d "prompt_price"
  let cup ← reqStr d "completion_unit_price"
  let cpu ← reqStr d "completion_price_unit"
  let cp ← reqStr d "completion_price"
  let tp ← reqStr d "total_price"
  let cur ← reqStr d "currency"
  let lat ← reqNum d "latency"
  .ok ⟨pt, ct, tt, pup, ppu, pp, cup, cpu, cp, tp, cur, lat⟩

structure RetrieverResource where
  position : Int
  dataset_id : String
  dataset_name : String
  document_id : String
  document_name : String
  segment_id : String
  score : Int
  content : String

def RetrieverResource.parse (d : JsonObj) : Except String RetrieverResource := do
  let pos ← reqInt d "position"
  let dsi ← reqStr d "dataset_id"
  let dsn ← reqStr d "dataset_name"
  let di ← reqStr d "document_id"
  let dn ← reqStr d "document_name"
  let si ← reqStr d "segment_id"
  let sc ← reqNum d "score"
  let c ← reqStr d "content"
  .ok ⟨pos, dsi, dsn, di, dn, si, sc, c⟩

def retrieverElems : List Json → Except String (List RetrieverResource)
  | [] => .ok []
  | .obj fields :: rest => do
    let r ← RetrieverResource.parse fields
    (retrieverElems rest).map (r :: ·)
  | _ :: _ => .error "retriever_resources: Input should be a valid dictionary"

structure Metadata where
  usage : Usage
  retriever_resources : List RetrieverResource

def Metadata.parse (d : JsonObj) : Except String Metadata := do
  let u ← match d.lookup "usage" with
    | some (.obj fields) => Usage.parse fields
    | some _ => .error "usage: Input should be a valid dictionary"
    | none => .error "usage: Field required"
  let rr ← match d.lookup "retriever_resources" with
    | none => .ok []
    | some (.arr elems) => retrieverElems elems
    | some _ => .error "retriever_resources: Input should be a valid list"
  .ok ⟨u, rr⟩

/-- The WorkflowStatus enumeration of models/workflow.py. -/
inductive WorkflowStatus where
  | running
  | succeeded
  | failed
  | stopped
deriving DecidableEq, Repr

def WorkflowStatus.value : WorkflowStatus → String
  | .running => "running"
  | .succeeded => "succeeded"
  | .failed => "failed"
  | .stopped => "stopped"

/-- Required `WorkflowStatus` field: pydantic enum validation by value. -/
def reqWorkflowStatus (d : JsonObj) (k : String) : Except String WorkflowStatus :=
  match d.lookup k with
  | some (.str "running") => .ok .running
  | some (.str "succeeded") => .ok .succeeded
  | some (.str "failed") => .ok .failed
  | some (.str "stopped") => .ok .stopped
  | some _ => .error (k ++ ": Input should be a valid WorkflowStatus")
  | none => .error (k ++ ": Field required")

structure ExecutionMetadata where
  total_tokens : Option Int
  total_price : Option String
  currency : Option String

def ExecutionMetadata.parse (d : JsonObj) : Except String ExecutionMetadata := do
  let tt ← reqOptInt d "total_tokens"
  let tp ← reqOptStr d "total_price"
  let cur ← reqOptStr d "currency"
  .ok ⟨tt, tp, cur⟩

structure WorkflowStartedData where
  id : String
  workflow_id : String
  sequence_number : Int
  inputs : Option JsonObj
  created_at : Int

def WorkflowStartedData.parse (d : JsonObj) : Except String WorkflowStartedData := do
  let i ← reqStr d "id"
  let wid ← reqStr d "workflow_id"
  let sn ← reqInt d "sequence_number"
  let inp ← optDictD d "inputs" none
  let ca ← reqInt d "created_at"
  .ok ⟨i, wid, sn, inp, ca⟩

structure NodeStartedData where
  id : String
  node_id : String
  node_type : String
  title : String
  index : Int
  predecessor_node_id : Option String
  inputs : Option JsonObj
  created_at : Int
  extras : JsonObj

def NodeStartedData.parse (d : JsonObj) : Except String NodeStartedData := do
  let i ← reqStr d "id"
  let ni ← reqStr d "node_id"
  let nt ← reqStr d "node_type"
  let t ← reqStr d "title"
  let idx ← reqInt d "index"
  let pni ← optStrD d "predecessor_node_id" none
  let inp ← optDictD d "inputs" none
  let ca ← reqInt d "created_at"
  let ex ← dictD d "extras" []
  .ok ⟨i, ni, nt, t, idx, pni, inp, ca, ex⟩

structure NodeFinishedData where
  id : String
  node_id : String
  node_type : String
  title : String
  index : Int
  predecessor_node_id : Option String
  inputs : Option JsonObj
  process_data : Option JsonObj
  outputs : Option JsonObj
  status : WorkflowStatus
  error : Option String
  elapsed_time : Option Int
  execution_metadata : Option ExecutionMetadata
  created_at : Int
  finished_at : Int
  files : List Json

def NodeFinishedData.parse (d : JsonObj) : Except String NodeFinishedData := do
  let i ← reqStr d "id"
  let ni ← reqStr d "node_id"
  let nt ← reqStr d "node_type"
  let t ← reqStr d "title"
  let idx ← reqInt d "index"
  let pni ← optStrD d "predecessor_node_id" none
  let inp ← optDictD d "inputs" none
  let pd ← optDictD d "process_data" none
  let outs ← optDictD d "outputs" (some [])
  let st ← reqWorkflowStatus d "status"
  let err ← optStrD d "error" none
  let et ← reqOptNum d "elapsed_time"
  let em ← match d.lookup "execution_metadata" with
    | none => .ok none
    | some .null => .ok none
    | some (.obj fields) => (ExecutionMetadata.parse fields).map some
    | some _ => .error "execution_metadata: Input should be a valid dictionary"
  let ca ← reqInt d "created_at"
  let fa ← reqInt d "finished_at"
  let fs ← listAnyD d "files" []
  .ok ⟨i, ni, nt, t, idx, pni, inp, pd, outs, st, err, et, em, ca, fa, fs⟩

structure WorkflowFinishedData where
  id : String
  workflow_id : String
  sequence_number : Int
  status : WorkflowStatus
  outputs : Option JsonObj
  error : Option String
  elapsed_time : Option Int
  total_tokens : Option Int
  total_steps : Option Int
  created_at : Int
  finished_at : Int
  created_by : JsonObj
  files : List Json

def WorkflowFinishedData.parse (d : JsonObj) : Except String WorkflowFinishedData := do
  let i ← reqStr d "id"
  let wid ← reqStr d "workflow_id"
  let sn ← reqInt d "sequence_number"
  let st ← reqWorkflowStatus d "status"
  let outs ← reqOptDict d "outputs"
  let err ← reqOptStr d "error"
  let et ← reqOptNum d "elapsed_time"
  let tt ← reqOptInt d "total_tokens"
  let ts ← optIntD d "total_steps" (some 0)
  let ca ← reqInt d "created_at"
  let fa ← reqInt d "finished_at"
  let cb ← dictD d "created_by" []
  let fs ← listAnyD d "files" []
  .ok ⟨i, wid, sn, st, outs, err, et, tt, ts, ca, fa, cb, fs⟩

/-- The payload union of WorkflowsStreamResponse.data. -/
inductive WorkflowData where
  | started (d : WorkflowStartedData)
  | finished (d : WorkflowFinishedData)
  | nodeStarted (d : NodeStartedData)
  | nodeFinished (d : NodeFinishedData)

/-- Validation of `Optional[Union[WorkflowStartedData, WorkflowFinishedData,
    NodeStartedData, NodeFinishedData]]` with no default: the key is
    required, null allowed; for an object the union members are tried in
    annotation order and the first success is kept (an approximation of the
    pydantic v2 smart union; no claim depends on the member chosen). -/
def reqOptWorkflowData (d : JsonObj) (k : String) : Except String (Option WorkflowData) :=
  match d.lookup k with
  | none => .error (k ++ ": Field required")
  | some .null => .ok none
  | some (.obj fields) =>
    match WorkflowStartedData.parse fields with
    | .ok v => .ok (some (.started v))
    | .error _ =>
      match WorkflowFinishedData.parse fields with
      | .ok v => .ok (some (.finished v))
      | .error _ =>
        match NodeStartedData.parse fields with
        | .ok v => .ok (some (.nodeStarted v))
        | .error _ =>
          match NodeFinishedData.parse fields with
          | .ok v => .ok (some (.nodeFinished v))
          | .error _ => .error (k ++ ": Input should be a valid workflow data object")
  | some _ => .error (k ++ ": Input should be a valid dictionary")

/-!  ## models/stream.py : stream response models

Every model below inherits StreamResponse, whose model config allows extra
fields: undeclared payload entries are kept on the model.  Each decode is
split into a core field parse and the attachment of the extra bucket.  -/

/-- `Optional[Metadata]` with no default: the key is required, null allowed. -/
def reqOptMetadata (d : JsonObj) (k : String) : Except String (Option Metadata) :=
  match d.lookup k with
  | none => .error (k ++ ": Field required")
  | some .null => .ok none
  | some (.obj fields) => (Metadata.parse fields).map some
  | some _ => .error (k ++ ": Input should be a valid dictionary")

/-- StreamResponse: the common envelope, also the generic passthrough and
    (via PingResponse, which adds nothing) the ping shape. -/
structure StreamResponseT where
  event : StreamEvent
  task_id : Option String
  extra : JsonObj

def StreamResponseT.fields : List String := ["event", "task_id"]

def StreamResponseT.parseCore (d : JsonObj) : Except String (StreamEvent × Option String) := do
  let ev ← reqEvent d
  let tid ← optStrD d "task_id" (some "")
  .ok (ev, tid)

def StreamResponseT.decode (d : JsonObj) : Except String StreamResponseT :=
  (StreamResponseT.parseCore d).map
    (fun p => ⟨p.1, p.2, extrasOutside StreamResponseT.fields d⟩)

/-- ErrorStreamResponse: StreamResponse plus the ErrorResponse fields
    (status defaulting to 500, code and message defaulting to the empty
    string) plus an optional message id. -/
structure ErrorStreamResponseT where
  event : StreamEvent
  task_id : Option String
  status : Int
  code : String
  message : String
  message_id : Option String
  extra : JsonObj

def ErrorStreamResponseT.fields : List String :=
  ["event", "task_id", "status", "code", "message", "message_id"]

def ErrorStreamResponseT.parseCore (d : JsonObj) :
    Except String (StreamEvent × Option String × Int × String × String × Option String) := do
  let ev ← reqEvent d
  let tid ← optStrD d "task_id" (some "")
  let st ← intD d "status" 500
  let co ← strD d "code" ""
  let me ← strD d "message" ""
  let mid ← optStrD d "message_id" (some "")
  .ok (ev, tid, st, co, me, mid)

def ErrorStreamResponseT.decode (d : JsonObj) : Except String ErrorStreamResponseT :=
  (ErrorStreamResponseT.parseCore d).map
    (fun p => ⟨p.1, p.2.1, p.2.2.1, p.2.2.2.1, p.2.2.2.2.1, p.2.2.2.2.2,
               extrasOutside ErrorStreamResponseT.fields d⟩)

/-- MessageStreamResponse; MessageReplaceStreamResponse and
    AgentMessageStreamResponse add no fields and share this decode. -/
structure MessageT where
  event : StreamEvent
  task_id : Option String
  message_id : String
  conversation_id : Option String
  answer : String
  created_at : Int
  extra : JsonObj

def MessageT.fields : List String :=
  ["event", "task_id", "message_id", "conversation_id", "answer", "created_at"]

def MessageT.parseCore (d : JsonObj) :
    Except String (StreamEvent × Option String × String × Option String × String × Int) := do
  let ev ← reqEvent d
  let tid ← optStrD d "task_id" (some "")
  let mid ← reqStr d "message_id"
  let cid ← optStrD d "conversation_id" (some "")
  let ans ← reqStr d "answer"
  let ca ← reqInt d "created_at"
  .ok (ev, tid, mid, cid, ans, ca)

def MessageT.decode (d : JsonObj) : Except String MessageT :=
  (MessageT.parseCore d).map
    (fun p => ⟨p.1, p.2.1, p.2.2.1, p.2.2.2.1, p.2.2.2.2.1, p.2.2.2.2.2,
               extrasOutside MessageT.fields d⟩)

/-- MessageEndStreamResponse. -/
structure MessageEndT where
  event : StreamEvent
  task_id : Option String
  message_id : String
  conversation_id : Option String
  created_at : Int
  metadata : Option Metadata
  extra : JsonObj

def MessageEndT.fields : List String :=
  ["event", "task_id", "message_id", "conversation_id", "created_at", "metadata"]

def MessageEndT.parseCore (d : JsonObj) :
    Except String (StreamEvent × Option String × String × Option String × Int × Option Metadata) := do
  let ev ← reqEvent d
  let tid ← optStrD d "task_id" (some "")
  let mid ← reqStr d "message_id"
  let cid ← optStrD d "conversation_id" (some "")
  let ca ← reqInt d "created_at"
  let md ← reqOptMetadata d "metadata"
  .ok (ev, tid, mid, cid, ca, md)

def MessageEndT.decode (d : JsonObj) : Except String MessageEndT :=
  (MessageEndT.parseCore d).map
    (fun p => ⟨p.1, p.2.1, p.2.2.1, p.2.2.2.1, p.2.2.2.2.1, p.2.2.2.2.2,
               extrasOutside MessageEndT.fields d⟩)

/-- AgentThoughtStreamResponse. -/
structure AgentThoughtT where
  event : StreamEvent
  task_id : Option String
  id : String
  message_id : String
  conversation_id : String
  position : Int
  thought : String
  observation : String
  tool : String
  tool_input : String
  message_files : List String
  created_at : Int
  extra : JsonObj

def AgentThoughtT.fields : List String :=
  ["event", "task_id", "id", "message_id", "conversation_id", "position",
   "thought", "observation", "tool", "tool_input", "message_files", "created_at"]

def AgentThoughtT.parseCore (d : JsonObj) :
    Except String (StreamEvent × Option String × String × String × String × Int ×
                   String × String × String × String × List String × Int) := do
  let ev ← reqEvent d
  let tid ← optStrD d "task_id" (some "")
  let i ← reqStr d "id"
  let mid ← reqStr d "message_id"
  let cid ← reqStr d "conversation_id"
  let pos ← reqInt d "position"
  let th ← reqStr d "thought"
  let ob ← reqStr d "observation"
  let tl ← reqStr d "tool"
  let ti ← reqStr d "tool_input"
  let mf ← listStrD d "message_files" []
  let ca ← reqInt d "created_at"
  .ok (ev, tid, i, mid, cid, pos, th, ob, tl, ti, mf, ca)

def AgentThoughtT.decode (d : JsonObj) : Except String AgentThoughtT :=
  (AgentThoughtT.parseCore d).map
    (fun p => ⟨p.1, p.2.1, p.2.2.1, p.2.2.2.1, p.2.2.2.2.1, p.2.2.2.2.2.1,
               p.2.2.2.2.2.2.1, p.2.2.2.2.2.2.2.1, p.2.2.2.2.2.2.2.2.1,
               p.2.2.2.2.2.2.2.2.2.1, p.2.2.2.2.2.2.2.2.2.2.1, p.2.2.2.2.2.2.2.2.2.2.2,
               extrasOutside AgentThoughtT.fields d⟩)

/-- MessageFileStreamResponse. -/
structure MessageFileT where
  event : StreamEvent
  task_id : Option String
  id : String
  conversation_id : String
  type : String
  belongs_to : String
  url : String
  extra : JsonObj

def MessageFileT.fields : List String :=
  ["event", "task_id", "id", "conversation_id", "type", "belongs_to", "url"]

def MessageFileT.parseCore (d : JsonObj) :
    Except String (StreamEvent × Option String × String × String × String × String × String) := do
  let ev ← reqEvent d
  let tid ← optStrD d "task_id" (some "")
  let i ← reqStr d "id"
  let cid ← reqStr d "conversation_id"
  let ty ← reqStr d "type"
  let bt ← reqStr d "belongs_to"
  let u ← reqStr d "url"
  .ok (ev, tid, i, cid, ty, bt, u)

def MessageFileT.decode (d : JsonObj) : Except String MessageFileT :=
  (MessageFileT.parseCore d).map
    (fun p => ⟨p.1, p.2.1, p.2.2.1, p.2.2.2.1, p.2.2.2.2.1, p.2.2.2.2.2.1, p.2.2.2.2.2.2,
               extrasOutside MessageFileT.fields d⟩)

/-- WorkflowsStreamResponse (the chat table also maps the workflow
    lifecycle tags to this model). -/
structure WorkflowsT where
  event : StreamEvent
  task_id : Option String
  workflow_run_id : String
  data : Option WorkflowData
  extra : JsonObj

def WorkflowsT.fields : List String :=
  ["event", "task_id", "workflow_run_id", "data"]

def WorkflowsT.parseCore (d : JsonObj) :
    Except String (StreamEvent × Option String × String × Option WorkflowData) := do
  let ev ← reqEvent d
  let tid ← optStrD d "task_id" (some "")
  let wri ← reqStr d "workflow_run_id"
  let da ← reqOptWorkflowData d "data"
  .ok (ev, tid, wri, da)

def WorkflowsT.decode (d : JsonObj) : Except String WorkflowsT :=
  (WorkflowsT.parseCore d).map
    (fun p => ⟨p.1, p.2.1, p.2.2.1, p.2.2.2, extrasOutside WorkflowsT.fields d⟩)

/-!  ## models/stream.py : dispatch tables and builders -/

/-- The stream response classes that appear in the dispatch tables (plus
    ErrorStreamResponse, which never does). -/
inductive RespClass where
  | streamResponse
  | pingResponse
  | errorStreamResponse
  | messageResponse
  | messageEndResponse
  | messageReplaceResponse
  | agentMessageResponse
  | agentThoughtResponse
  | messageFileResponse
  | workflowsResponse
deriving DecidableEq, Repr

/-- A decoded typed stream event, tagged by the class that produced it.
    MessageReplace and AgentMessage subclass MessageStreamResponse without
    adding fields; PingResponse subclasses StreamResponse likewise. -/
inductive StreamResp where
  | generic (r : StreamResponseT)
  | ping (r : StreamResponseT)
  | errorResp (r : ErrorStreamResponseT)
  | message (r : MessageT)
  | messageEnd (r : MessageEndT)
  | messageReplace (r : MessageT)
  | agentMessage (r : MessageT)
  | agentThought (r : AgentThoughtT)
  | messageFile (r : MessageFileT)
  | workflows (r : WorkflowsT)

/-- The class a decoded event belongs to. -/
def shapeOf : StreamResp → RespClass
  | .generic _ => .streamResponse
  | .ping _ => .pingResponse
  | .errorResp _ => .errorStreamResponse
  | .message _ => .messageResponse
  | .messageEnd _ => .messageEndResponse
  | .messageReplace _ => .messageReplaceResponse
  | .agentMessage _ => .agentMessageResponse
  | .agentThought _ => .agentThoughtResponse
  | .messageFile _ => .messageFileResponse
  | .workflows _ => .workflowsResponse

/-- The declared field names of each class (the undeclared payload entries
    land in the extra bucket). -/
def RespClass.fieldNames : RespClass → List String
  | .streamResponse => StreamResponseT.fields
  | .pingResponse => StreamResponseT.fields
  | .errorStreamResponse => ErrorStreamResponseT.fields
  | .messageResponse => MessageT.fields
  | .messageEndResponse => MessageEndT.fields
  | .messageReplaceResponse => MessageT.fields
  | .agentMessageResponse => MessageT.fields
  | .agentThoughtResponse => AgentThoughtT.fields
  | .messageFileResponse => MessageFileT.fields
  | .workflowsResponse => WorkflowsT.fields

/-- The discriminator tag carried by a decoded event. -/
def eventOf : StreamResp → StreamEvent
  | .generic r => r.event
  | .ping r => r.event
  | .errorResp r => r.event
  | .message r => r.event
  | .messageEnd r => r.event
  | .messageReplace r => r.event
  | .agentMessage r => r.event
  | .agentThought r => r.event
  | .messageFile r => r.event
  | .workflows r => r.event

/-- The extra bucket carried by a decoded event. -/
def extraOf : StreamResp → JsonObj
  | .generic r => r.extra
  | .ping r => r.extra
  | .errorResp r => r.extra
  | .message r => r.extra
  | .messageEnd r => r.extra
  | .messageReplace r => r.extra
  | .agentMessage r => r.extra
  | .agentThought r => r.extra
  | .messageFile r => r.extra
  | .workflows r => r.extra

/-- Replace the extra bucket of a decoded event. -/
def setExtra : StreamResp → JsonObj → StreamResp
  | .generic r, x => .generic {r with extra := x}
  | .ping r, x => .ping {r with extra := x}
  | .errorResp r, x => .errorResp {r with extra := x}
  | .message r, x => .message {r with extra := x}
  | .messageEnd r, x => .messageEnd {r with extra := x}
  | .messageReplace r, x => .messageReplace {r with extra := x}
  | .agentMessage r, x => .agentMessage {r with extra := x}
  | .agentThought r, x => .agentThought {r with extra := x}
  | .messageFile r, x => .messageFile {r with extra := x}
  | .workflows r, x => .workflows {r with extra := x}

/-- Construct an instance of the given class from the payload, as Python
    `cls(**data)` does after the table lookup. -/
def decodeAs : RespClass → JsonObj → Except String StreamResp
  | .streamResponse, d => (StreamResponseT.decode d).map .generic
  | .pingResponse, d => (StreamResponseT.decode d).map .ping
  | .errorStreamResponse, d => (ErrorStreamResponseT.decode d).map .errorResp
  | .messageResponse, d => (MessageT.decode d).map .message
  | .messageEndResponse, d => (MessageEndT.decode d).map .messageEnd
  | .messageReplaceResponse, d => (MessageT.decode d).map .messageReplace
  | .agentMessageResponse, d => (MessageT.decode d).map .agentMessage
  | .agentThoughtResponse, d => (AgentThoughtT.decode d).map .agentThought
  | .messageFileResponse, d => (MessageFileT.decode d).map .messageFile
  | .workflowsResponse, d => (WorkflowsT.decode d).map .workflows

/-- The completion endpoint table. -/
def COMPLETION_EVENT_TO_STREAM_RESP_MAPPING : List (StreamEvent × RespClass) :=
  [(.ping, .pingResponse),
   (.message, .messageResponse),
   (.message_end, .messageEndResponse),
   (.message_replace, .messageReplaceResponse)]

/-- The chat endpoint table. -/
def CHAT_EVENT_TO_STREAM_RESP_MAPPING : List (StreamEvent × RespClass) :=
  [(.ping, .pingResponse),
   (.message, .messageResponse),
   (.message_end, .messageEndResponse),
   (.message_replace, .messageReplaceResponse),
   (.message_file, .messageFileResponse),
   (.agent_message, .agentMessageResponse),
   (.agent_thought, .agentThoughtResponse),
   (.workflow_started, .workflowsResponse),
   (.node_started, .workflowsResponse),
   (.node_finished, .workflowsResponse),
   (.workflow_finished, .workflowsResponse)]

/-- The workflow endpoint table. -/
def WORKFLOW_EVENT_TO_STREAM_RESP_MAPPING : List (StreamEvent × RespClass) :=
  [(.ping, .pingResponse),
   (.workflow_started, .workflowsResponse),
   (.node_started, .workflowsResponse),
   (.node_finished, .workflowsResponse),
   (.workflow_finished, .workflowsResponse)]

/-- build_completion_stream_response: resolve the event tag of the payload
    strictly, look it up in the completion table defaulting to the generic
    StreamResponse, and construct that class from the payload. -/
def build_completion_stream_response (data : JsonObj) : Except String StreamResp :=
  match StreamEvent.new (.inr (data.lookup "event")) with
  | .error e => .error e
  | .ok event =>
    decodeAs ((COMPLETION_EVENT_TO_STREAM_RESP_MAPPING.lookup event).getD .streamResponse) data

/-- build_chat_stream_response, over the chat table. -/
def build_chat_stream_response (data : JsonObj) : Except String StreamResp :=
  match StreamEvent.new (.inr (data.lookup "event")) with
  | .error e => .error e
  | .ok event =>
    decodeAs ((CHAT_EVENT_TO_STREAM_RESP_MAPPING.lookup event).getD .streamResponse) data

/-- build_workflows_stream_response, over the workflow table. -/
def build_workflows_stream_response (data : JsonObj) : Except String StreamResp :=
  match StreamEvent.new (.inr (data.lookup "event")) with
  | .error e => .error e
  | .ok event =>
    decodeAs ((WORKFLOW_EVENT_TO_STREAM_RESP_MAPPING.lookup event).getD .streamResponse) data

/-- The three endpoint families. -/
inductive Family where
  | completion
  | chat
  | workflow
deriving DecidableEq, Repr

/-- The dispatch table of a family. -/
def Family.table : Family → List (StreamEvent × RespClass)
  | .completion => COMPLETION_EVENT_TO_STREAM_RESP_MAPPING
  | .chat => CHAT_EVENT_TO_STREAM_RESP_MAPPING
  | .workflow => WORKFLOW_EVENT_TO_STREAM_RESP_MAPPING

/-- The builder of a family. -/
def buildFor : Family → JsonObj → Except String StreamResp
  | .completion => build_completion_stream_response
  | .chat => build_chat_stream_response
  | .workflow => build_workflows_stream_response

/-- The class the code dispatches a resolved tag to, per family. -/
def classForFam (fam : Family) (t : StreamEvent) : RespClass :=
  ((fam.table).lookup t).getD .streamResponse

/-!  ## errors.py : taxonomy and classifier -/

/-- One kind per exception class of errors.py; apiError is the generic
    DifyAPIError base. -/
inductive DifyErrorKind where
  | apiError
  | invalidParam
  | notChatApp
  | resourceNotFound
  | appUnavailable
  | providerNotInitialize
  | providerQuotaExceeded
  | modelCurrentlyNotSupport
  | completionRequestError
  | internalServerError
  | noFileUploaded
  | tooManyFiles
  | unsupportedPreview
  | unsupportedEstimate
  | fileTooLarge
  | unsupportedFileType
  | s3ConnectionFailed
  | s3PermissionDenied
  | s3FileTooLarge
deriving DecidableEq, Repr

/-- Every raised failure carries its kind and the three fields verbatim. -/
structure DifyAPIError where
  kind : DifyErrorKind
  status : Int
  code : String
  message : String
deriving DecidableEq, Repr

/-- The fixed table of known application error codes. -/
def SPEC_CODE_ERRORS : List (String × DifyErrorKind) :=
  [("invalid_param", .invalidParam),
   ("not_chat_app", .notChatApp),
   ("app_unavailable", .appUnavailable),
   ("provider_not_initialize", .providerNotInitialize),
   ("provider_quota_exceeded", .providerQuotaExceeded),
   ("model_currently_not_support", .modelCurrentlyNotSupport),
   ("completion_request_error", .completionRequestError),
   ("no_file_uploaded", .noFileUploaded),
   ("too_many_files", .tooManyFiles),
   ("unsupported_preview", .unsupportedPreview),
   ("unsupported_estimate", .unsupportedEstimate),
   ("file_too_large", .fileTooLarge),
   ("unsupported_file_type", .unsupportedFileType),
   ("s3_connection_failed", .s3ConnectionFailed),
   ("s3_permission_denied", .s3PermissionDenied),
   ("s3_file_too_large", .s3FileTooLarge)]

/-- The classification tail of raise_for_status, applied to the decoded
    details: 404 first, then 500, then the code table with the generic
    DifyAPIError as default. -/
def classifyError (status : Int) (code message : String) : DifyAPIError :=
  if status = 404 then ⟨.resourceNotFound, status, code, message⟩
  else if status = 500 then ⟨.internalServerError, status, code, message⟩
  else ⟨(SPEC_CODE_ERRORS.lookup code).getD .apiError, status, code, message⟩

/-- models/base.py ErrorResponse: used to decode a failed HTTP response
    body; undeclared fields are ignored (pydantic default). -/
structure ErrorResponseT where
  status : Int
  code : String
  message : String
deriving DecidableEq, Repr

def ErrorResponseT.decode (d : JsonObj) : Except String ErrorResponseT := do
  let st ← intD d "status" 500
  let co ← strD d "code" ""
  let me ← strD d "message" ""
  .ok ⟨st, co, me⟩

/-!  ## _clientx.py : the streaming pipeline -/

/-- The data payload of a server sent event, together with the outcome of
    parsing it as JSON: either a raw text that is not valid JSON, or the
    parsed value.  The bare word ping is not valid JSON, so a payload that
    parsed as JSON never has raw text equal to the ping marker. -/
inductive SseData where
  | text (s : String)
  | json (j : Json)

/-- Python equality of the raw data text with an ignored marker string
    (the only marker is the ping keep alive, which no JSON text equals). -/
def SseData.rawEq : SseData → String → Bool
  | .text t, s => t == s
  | .json _, _ => false

/-- A server sent event as yielded by the transport. -/
structure Sse where
  event : String
  data : SseData

/-- IGNORED_STREAM_EVENTS = (StreamEvent.PING.value,) -/
def IGNORED_STREAM_EVENTS : List String := ["ping"]

/-- A failure surfaced to the caller by the pipeline: a classified
    DifyAPIError, a JSON decode error from json.loads, a TypeError from
    unpacking a non mapping, or a pydantic validation error. -/
inductive PyFailure where
  | api (e : DifyAPIError)
  | jsonDecode (raw : String)
  | typeError (msg : String)
  | validation (msg : String)
deriving DecidableEq, Repr

/-- raise_for_status on a ServerSentEvent: a no-op unless the event tag is
    the error value; otherwise parse the data as JSON, decode it as an
    ErrorStreamResponse and classify.  Returns the raised failure, none
    when nothing is raised. -/
def sse_raise_for_status (sse : Sse) : Option PyFailure :=
  if sse.event ≠ "error" then none
  else match sse.data with
    | .text s => some (.jsonDecode s)
    | .json (.obj fields) =>
      match ErrorStreamResponseT.decode fields with
      | .ok er => some (.api (classifyError er.status er.code er.message))
      | .error m => some (.validation m)
    | .json _ => some (.typeError "argument after ** must be a mapping")

/-- The per event loop of request_stream: raise_for_status on the event
    first, then drop it when its tag or its raw data text is an ignored
    marker, otherwise yield it.  The result is the list of yielded events
    in order and the failure, if any, that terminated the loop. -/
def processStream : List Sse → List Sse × Option PyFailure
  | [] => ([], none)
  | sse :: rest =>
    match sse_raise_for_status sse with
    | some f => ([], some f)
    | none =>
      if IGNORED_STREAM_EVENTS.contains sse.event
          || IGNORED_STREAM_EVENTS.any (fun m => sse.data.rawEq m) then
        processStream rest
      else
        let out := processStream rest
        (sse :: out.1, out.2)

/-- The HTTP response that opened the SSE channel: status line, content
    type header, and the body with its JSON parse outcome. -/
structure HttpxResponse where
  status_code : Int
  content_type : Option String
  body : SseData

/-- httpx Response.is_success: a 2xx status line. -/
def HttpxResponse.is_success (r : HttpxResponse) : Bool :=
  200 ≤ r.status_code && r.status_code < 300

/-- _get_content_type: the content-type header (empty when absent) up to
    the first semicolon, the first component of the Python str partition. -/
def _get_content_type (r : HttpxResponse) : String :=
  String.mk ((r.content_type.getD "").toList.takeWhile (fun c => c ≠ ';'))

/-- Contiguous subsequence search over character lists. -/
def charsInfixOf (needle : List Char) : List Char → Bool
  | [] => needle.isEmpty
  | c :: rest => needle.isPrefixOf (c :: rest) || charsInfixOf needle rest

/-- Substring containment, Python `needle in hay`. -/
def strContains (hay needle : String) : Bool :=
  charsInfixOf needle.toList hay.toList

/-- _check_stream_content_type: the response is successful and the part of
    its content type before any semicolon contains text/event-stream. -/
def _check_stream_content_type (r : HttpxResponse) : Bool :=
  r.is_success && strContains (_get_content_type r) "text/event-stream"

/-- raise_for_status on an httpx Response: a no-op on success; otherwise
    parse the body as JSON, default the status field from the status line
    when the body omits it, decode as ErrorResponse and classify. -/
def response_raise_for_status (r : HttpxResponse) : Option PyFailure :=
  if r.is_success then none
  else match r.body with
    | .text s => some (.jsonDecode s)
    | .json (.obj fields) =>
      let fields2 :=
        if (JsonObj.lookup fields "status").isNone then
          fields ++ [("status", .num r.status_code)]
        else fields
      match ErrorResponseT.decode fields2 with
      | .ok er => some (.api (classifyError er.status er.code er.message))
      | .error m => some (.validation m)
    | .json _ => some (.typeError "argument after ** must be a mapping")

/-- The observable outcome of one request_stream call: whether the body
    was force read before SSE iteration, the events yielded, and the
    failure, if any, that terminated the call. -/
structure StreamRun where
  bodyRead : Bool
  yielded : List Sse
  failure : Option PyFailure

/-- request_stream after the channel is open: when the content type guard
    fails the body is read and raise_for_status runs on the response; when
    that raises nothing (or the guard passed) the per event loop runs over
    the transport events. -/
def request_stream (resp : HttpxResponse) (events : List Sse) : StreamRun :=
  if _check_stream_content_type resp then
    let out := processStream events
    ⟨false, out.1, out.2⟩
  else
    match response_raise_for_status resp with
    | some f => ⟨true, [], some f⟩
    | none =>
      let out := processStream events
      ⟨true, out.1, out.2⟩

/-- ASCII lower case of one character, the effect of the Python str.lower
    method on header names. -/
def charLower (c : Char) : Char :=
  if 65 ≤ c.toNat ∧ c.toNat ≤ 90 then Char.ofNat (c.toNat + 32) else c

/-- ASCII lower case of a header name. -/
def strLower (s : String) : String := String.mk (s.toList.map charLower)

/-- _prepare_auth_headers: add a bearer Authorization header built from the
    configured api key unless some present key equals authorization up to
    case. -/
def _prepare_auth_headers (api_key : String) (headers : List (String × String)) :
    List (String × String) :=
  if headers.any (fun kv => strLower kv.1 == "authorization") then headers
  else headers ++ [("Authorization", "Bearer " ++ api_key)]

/-!  ## Spec side definitions (for refinement comparison only) -/

/-- Modelled from the spec text of the claim: the shape each family is
    declared to dispatch each known tag to, with the generic passthrough
    for any tag absent from the family table. -/
def specFamilyShape : Family → StreamEvent → RespClass
  | .completion, .ping => .pingResponse
  | .completion, .message => .messageResponse
  | .completion, .message_end => .messageEndResponse
  | .completion, .message_replace => .messageReplaceResponse
  | .completion, _ => .streamResponse
  | .chat, .ping => .pingResponse
  | .chat, .message => .messageResponse
  | .chat, .message_end => .messageEndResponse
  | .chat, .message_replace => .messageReplaceResponse
  | .chat, .message_file => .messageFileResponse
  | .chat, .agent_message => .agentMessageResponse
  | .chat, .agent_thought => .agentThoughtResponse
  | .chat, .workflow_started => .workflowsResponse
  | .chat, .node_started => .workflowsResponse
  | .chat, .node_finished => .workflowsResponse
  | .chat, .workflow_finished => .workflowsResponse
  | .chat, _ => .streamResponse
  | .workflow, .ping => .pingResponse
  | .workflow, .workflow_started => .workflowsResponse
  | .workflow, .node_started => .workflowsResponse
  | .workflow, .node_finished => .workflowsResponse
  | .workflow, .workflow_finished => .workflowsResponse
  | .workflow, _ => .streamResponse

/-- Success test for a fallible computation. -/
def isOkB {ε γ : Type} : Except ε γ → Bool
  | .ok _ => true
  | .error _ => false

/-!  ## Claim theorems -/

/-- C2: for every error triple handed to the classifier, status 404 yields
    the resource not found kind regardless of code; otherwise status 500
    yields the internal server error kind regardless of code; otherwise a
    code present in SPEC_CODE_ERRORS yields that code specific kind;
    otherwise the generic API failure kind; and in every case the failure
    carries status, code and message unchanged. -/
theorem claim_C2 (status : Int) (code message : String) :
    (status = 404 →
      classifyError status code message = ⟨.resourceNotFound, status, code, message⟩) ∧
    (status ≠ 404 → status = 500 →
      classifyError status code message = ⟨.internalServerError, status, code, message⟩) ∧
    (∀ k, status ≠ 404 → status ≠ 500 → SPEC_CODE_ERRORS.lookup code = some k →
      classifyError status code message = ⟨k, status, code, message⟩) ∧
    (status ≠ 404 → status ≠ 500 → SPEC_CODE_ERRORS.lookup code = none →
      classifyError status code message = ⟨.apiError, status, code, message⟩) := by
  refine ⟨?_, ?_, ?_, ?_⟩
  · intro h; simp [classifyError, h]
  · intro h4 h5; simp [classifyError, h4, h5]
  · intro k h4 h5 hk; simp [classifyError, h4, h5, hk]
  · intro h4 h5 hk; simp [classifyError, h4, h5, hk]

theorem claim_C2_witness :
    classifyError 404 "invalid_param" "a" = ⟨.resourceNotFound, 404, "invalid_param", "a"⟩ ∧
    classifyError 500 "invalid_param" "b" = ⟨.internalServerError, 500, "invalid_param", "b"⟩ ∧
    classifyError 403 "provider_quota_exceeded" "c"
      = ⟨.providerQuotaExceeded, 403, "provider_quota_exceeded", "c"⟩ ∧
    classifyError 403 "mystery_code" "d" = ⟨.apiError, 403, "mystery_code", "d"⟩ :=
  ⟨(claim_C2 404 "invalid_param" "a").1 rfl,
   (claim_C2 500 "invalid_param" "b").2.1 (by decide) rfl,
   (claim_C2 403 "provider_quota_exceeded" "c").2.2.1 .providerQuotaExceeded
     (by decide) (by decide) rfl,
   (claim_C2 403 "mystery_code" "d").2.2.2 (by decide) (by decide) rfl⟩

/-- C7: header preparation leaves the map unchanged when it already holds a
    key equal to authorization up to case; otherwise it appends exactly the
    Authorization entry bearing the api key; in both cases every
    pre-existing entry is unchanged in place. -/
theorem claim_C7 (api_key : String) (headers : List (String × String)) :
    (headers.any (fun kv => strLower kv.1 == "authorization") = true →
      _prepare_auth_headers api_key headers = headers) ∧
    (headers.any (fun kv => strLower kv.1 == "authorization") = false →
      _prepare_auth_headers api_key headers =
        headers ++ [("Authorization", "Bearer " ++ api_key)]) ∧
    (∀ i, i < headers.length →
      (_prepare_auth_headers api_key headers)[i]? = headers[i]?) := by
  refine ⟨fun h => by simp [_prepare_auth_headers, h],
          fun h => by simp [_prepare_auth_headers, h], fun i hi => ?_⟩
  unfold _prepare_auth_headers
  by_cases h : headers.any (fun kv => strLower kv.1 == "authorization")
  · simp [h]
  · simp only [h, if_false]
    exact List.getElem?_append_left hi

theorem claim_C7_witness :
    _prepare_auth_headers "k" [("Host", "h"), ("AUTHORIZATION", "token")]
      = [("Host", "h"), ("AUTHORIZATION", "token")] ∧
    _prepare_auth_headers "k" [("Host", "h")]
      = [("Host", "h"), ("Authorization", "Bearer k")] ∧
    (_prepare_auth_headers "k" [("Host", "h")])[0]? = some ("Host", "h") :=
  ⟨(claim_C7 "k" [("Host", "h"), ("AUTHORIZATION", "token")]).1 (by decide),
   (claim_C7 "k" [("Host", "h")]).2.1 (by decide),
   ((claim_C7 "k" [("Host", "h")]).2.2 0 (by decide)).trans rfl⟩

/-- C8: StreamEvent.new is idempotent: applied to an already resolved tag
    it returns the tag unchanged, hence resolving a string twice equals
    resolving it once. -/
theorem claim_C8 :
    (∀ e : StreamEvent, StreamEvent.new (.inl e) = .ok e) ∧
    (∀ s t, StreamEvent.new (.inr (some (.str s))) = .ok t →
      StreamEvent.new (.inl t) = .ok t) :=
  ⟨fun _ => rfl, fun _ _ _ => rfl⟩

theorem claim_C8_witness :
    StreamEvent.new (.inr (some (.str "ping"))) = .ok .ping ∧
    StreamEvent.new (.inl .ping) = .ok .ping :=
  ⟨rfl, claim_C8.2 "ping" .ping rfl⟩

/-- C10: a payload with no event key makes each family builder fail with
    the strict resolution error carrying the Python repr of None, rather
    than produce any passthrough value. -/
theorem claim_C10 (fam : Family) (d : JsonObj) (h : d.lookup "event" = none) :
    buildFor fam d = .error (pyRepr none) := by
  cases fam <;>
    simp [buildFor, build_completion_stream_response, build_chat_stream_response,
      build_workflows_stream_response, h, StreamEvent.new, str_to_enum,
      StreamEvent.members, jsonEqStr]

theorem claim_C10_witness :
    ([("answer", Json.str "x")] : JsonObj).lookup "event" = none ∧
    buildFor .completion [("answer", Json.str "x")] = .error (pyRepr none) :=
  ⟨rfl, claim_C10 .completion [("answer", Json.str "x")] rfl⟩

/-- With pairwise distinct member values, the scan finds exactly the member
    holding the sought value. -/
theorem find_member_of_value {α : Type} (value : α → String) (s : String) :
    ∀ (members : List α), (members.map value).Nodup → ∀ m ∈ members, value m = s →
      members.find? (fun x => s == value x) = some m := by
  intro members
  induction members with
  | nil => intro _ m hm; cases hm
  | cons a t ih =>
    intro hnd m hm hv
    simp only [List.map_cons, List.nodup_cons] at hnd
    rcases List.mem_cons.mp hm with rfl | hmt
    · simp [List.find?_cons, hv]
    · have hne : value a ≠ s := fun he => hnd.1 (by
        rw [he, ← hv]; exact List.mem_map_of_mem value hmt)
      have hb : (s == value a) = false := by
        simp [BEq.beq]; exact fun he => hne he.symm
      simp only [List.find?_cons, hb]
      exact ih hnd.2 m hmt hv

/-- C5: the resolver returns the member whose value equals the input string
    exactly when one exists (for an enumeration, whose declared values are
    pairwise distinct); on any other string it fails in strict mode with an
    error carrying the offending string, and returns the caller supplied
    default in tolerant mode. -/
theorem claim_C5 {α : Type} (members : List α) (value : α → String) (s : String)
    (dflt : Option α) :
    ((members.map value).Nodup → ∀ m ∈ members, value m = s →
      ∀ ign, str_to_enum (· == ·) id members value s ign dflt = .ok (some m)) ∧
    ((∀ m ∈ members, value m ≠ s) →
      str_to_enum (· == ·) id members value s false dflt = .error s ∧
      str_to_enum (· == ·) id members value s true dflt = .ok dflt) := by
  constructor
  · intro hnd m hm hv ign
    unfold str_to_enum
    rw [find_member_of_value value s members hnd m hm hv]
  · intro hno
    have hf : members.find? (fun x => s == value x) = none := by
      rw [List.find?_eq_none]
      intro x hx
      simp [BEq.beq]
      exact fun he => hno x hx he.symm
    constructor <;> (unfold str_to_enum; rw [hf]) <;> rfl

theorem claim_C5_witness :
    str_to_enum (· == ·) id StreamEvent.members StreamEvent.value "message" false none
      = .ok (some .message) ∧
    str_to_enum (· == ·) id StreamEvent.members StreamEvent.value "Message" false none
      = .error "Message" ∧
    str_to_enum (· == ·) id StreamEvent.members StreamEvent.value "Message" true
      (some .ping) = .ok (some .ping) :=
  ⟨(claim_C5 StreamEvent.members StreamEvent.value "message" none).1
     (by decide) .message (by decide) rfl false,
   ((claim_C5 StreamEvent.members StreamEvent.value "Message" none).2 (by decide)).1,
   ((claim_C5 StreamEvent.members StreamEvent.value "Message" (some .ping)).2 (by decide)).2⟩

/-- A bound fallible computation succeeds exactly when both stages do. -/
theorem bind_ok_iff {γ δ : Type} (x : Except String γ) (f : γ → Except String δ) (b : δ) :
    (x >>= f = .ok b) ↔ ∃ a, x = .ok a ∧ f a = .ok b := by
  cases x <;> simp [Bind.bind, Except.bind]

/-- A mapped fallible computation succeeds exactly when the source does. -/
theorem map_ok_iff {γ δ : Type} (x : Except String γ) (f : γ → δ) (b : δ) :
    (x.map f = .ok b) ↔ ∃ a, x = .ok a ∧ f a = b := by
  cases x <;> simp [Except.map]

/-- C9: an error tagged stream event whose JSON payload has no status field
    decodes with the defaulted status 500, so the in band error path always
    raises the internal server error kind with status 500, never consulting
    the known application codes. -/
theorem claim_C9 (fields : JsonObj) (er : ErrorStreamResponseT)
    (hst : fields.lookup "status" = none)
    (hdec : ErrorStreamResponseT.decode fields = .ok er) :
    er.status = 500 ∧
    sse_raise_for_status ⟨"error", .json (.obj fields)⟩ =
      some (.api ⟨.internalServerError, 500, er.code, er.message⟩) := by
  have hdec0 := hdec
  unfold ErrorStreamResponseT.decode at hdec
  rw [map_ok_iff] at hdec
  obtain ⟨p, hp, hmk⟩ := hdec
  unfold ErrorStreamResponseT.parseCore at hp
  simp only [bind_ok_iff, Except.ok.injEq] at hp
  obtain ⟨ev, h1, tid, h2, st, h3, co, h4, me, h5, mid, h6, hfin⟩ := hp
  have hst500 : st = 500 := by
    unfold intD at h3
    rw [hst] at h3
    exact (Except.ok.injEq _ _ |>.mp h3).symm
  have h500 : er.status = 500 := by
    rw [← hmk, ← hfin, hst500]
  refine ⟨h500, ?_⟩
  have hev : ((⟨"error", .json (.obj fields)⟩ : Sse).event ≠ "error") = False := by simp
  simp only [sse_raise_for_status, hev, if_false]
  rw [hdec0]
  show some (PyFailure.api (classifyError er.status er.code er.message)) = _
  rw [h500]
  have : classifyError 500 er.code er.message =
      ⟨.internalServerError, 500, er.code, er.message⟩ := by
    simp [classifyError]
  rw [this]

theorem claim_C9_witness :
    (([("event", Json.str "error"), ("code", Json.str "invalid_param"),
       ("message", Json.str "boom")] : JsonObj).lookup "status" = none) ∧
    sse_raise_for_status
      ⟨"error", .json (.obj [("event", Json.str "error"), ("code", Json.str "invalid_param"),
                             ("message", Json.str "boom")])⟩ =
      some (.api ⟨.internalServerError, 500, "invalid_param", "boom"⟩) :=
  ⟨rfl,
   (claim_C9 [("event", Json.str "error"), ("code", Json.str "invalid_param"),
              ("message", Json.str "boom")]
      ⟨.error, some "", 500, "invalid_param", "boom", some "", []⟩ rfl rfl).2⟩

/-- A computation passing the success test yields a value. -/
theorem isOkB_exists {ε γ : Type} (x : Except ε γ) (h : isOkB x = true) : ∃ v, x = .ok v := by
  cases x with
  | ok v => exact ⟨v, rfl⟩
  | error e => simp [isOkB] at h

/-- A successful decodeAs produces a value of the requested class. -/
theorem decodeAs_ok_shape (cls : RespClass) (d : JsonObj) (r : StreamResp)
    (h : decodeAs cls d = .ok r) : shapeOf r = cls := by
  cases cls <;> simp only [decodeAs] at h <;> rw [map_ok_iff] at h <;>
    obtain ⟨v, -, rfl⟩ := h <;> rfl

/-- Once the tag resolves, each family builder is the table driven decode. -/
theorem buildFor_resolved (fam : Family) (d : JsonObj) (t : StreamEvent)
    (hev : StreamEvent.new (.inr (d.lookup "event")) = .ok t) :
    buildFor fam d = decodeAs (classForFam fam t) d := by
  cases fam <;>
    simp only [buildFor, build_completion_stream_response, build_chat_stream_response,
      build_workflows_stream_response] <;>
    rw [hev] <;> rfl

/-- The code dispatch tables agree with the spec declared mapping on every
    family and every known tag, including defaulting to the generic
    passthrough off the table. -/
theorem classForFam_eq_spec (fam : Family) (t : StreamEvent) :
    classForFam fam t = specFamilyShape fam t := by
  cases fam <;> cases t <;> rfl

/-- The components of a successful generic StreamResponse decode. -/
theorem streamDecode_parts (d : JsonObj) (env : StreamResponseT)
    (h : StreamResponseT.decode d = .ok env) :
    reqEvent d = .ok env.event ∧ env.extra = extrasOutside StreamResponseT.fields d := by
  unfold StreamResponseT.decode at h
  rw [map_ok_iff] at h
  obtain ⟨p, hp, hmk⟩ := h
  unfold StreamResponseT.parseCore at hp
  simp only [bind_ok_iff, Except.ok.injEq] at hp
  obtain ⟨ev, h1, tid, h2, hfin⟩ := hp
  exact ⟨by rw [← hmk, ← hfin]; exact h1, by rw [← hmk]⟩

/-- The builder path and the validator path resolve the same event field. -/
theorem reqEvent_of_new (d : JsonObj) (t : StreamEvent)
    (hev : StreamEvent.new (.inr (d.lookup "event")) = .ok t) :
    reqEvent d = .ok t := by
  unfold reqEvent
  cases hl : d.lookup "event" with
  | none =>
    rw [hl] at hev
    have hne : StreamEvent.new (.inr none) = .error "None" := rfl
    rw [hne] at hev
    exact absurd hev (by simp)
  | some v => rw [hl] at hev; exact hev

/-- C1: for a payload whose tag resolves to t and that satisfies the
    well formedness of the shape the family maps t to, the builder returns
    that very shape as the spec declares it per family, and an off table
    tag lands in the generic passthrough carrying the tag, the task id
    default and the raw extra fields. -/
theorem claim_C1 (fam : Family) (d : JsonObj) (t : StreamEvent)
    (hev : StreamEvent.new (.inr (d.lookup "event")) = .ok t)
    (hwf : isOkB (decodeAs (classForFam fam t) d) = true) :
    ∃ r, buildFor fam d = .ok r ∧ shapeOf r = specFamilyShape fam t ∧
      (specFamilyShape fam t = .streamResponse →
        ∃ env, r = .generic env ∧ env.event = t ∧
          env.extra = extrasOutside StreamResponseT.fields d) := by
  obtain ⟨r, hr⟩ := isOkB_exists _ hwf
  refine ⟨r, ?_, ?_, ?_⟩
  · rw [buildFor_resolved fam d t hev]; exact hr
  · rw [decodeAs_ok_shape _ _ _ hr, classForFam_eq_spec]
  · intro hgen
    have hcls : classForFam fam t = .streamResponse := by
      rw [classForFam_eq_spec]; exact hgen
    rw [hcls] at hr
    simp only [decodeAs] at hr
    rw [map_ok_iff] at hr
    obtain ⟨env, henv, rfl⟩ := hr
    obtain ⟨hre, hex⟩ := streamDecode_parts d env henv
    have hrt : reqEvent d = .ok t := reqEvent_of_new d t hev
    refine ⟨env, rfl, ?_, hex⟩
    have := hre.symm.trans hrt
    exact (Except.ok.injEq _ _ |>.mp this)

theorem claim_C1_witness :
    StreamEvent.new (.inr (([("event", Json.str "agent_thought")] : JsonObj).lookup "event"))
      = .ok .agent_thought ∧
    isOkB (decodeAs (classForFam .completion .agent_thought)
      [("event", Json.str "agent_thought")]) = true ∧
    ∃ r, buildFor .completion [("event", Json.str "agent_thought")] = .ok r ∧
      shapeOf r = specFamilyShape .completion .agent_thought ∧
      (specFamilyShape .completion .agent_thought = .streamResponse →
        ∃ env, r = .generic env ∧ env.event = .agent_thought ∧
          env.extra = extrasOutside StreamResponseT.fields
            [("event", Json.str "agent_thought")]) :=
  ⟨rfl, rfl, claim_C1 .completion [("event", Json.str "agent_thought")] .agent_thought rfl rfl⟩

/-- Lookup misses a map none of whose keys is the sought one. -/
theorem lookupNoneOfNoKey (k : String) :
    ∀ (e : JsonObj), (∀ kv ∈ e, kv.1 ≠ k) → List.lookup k e = none := by
  intro e
  induction e with
  | nil => intro _; rfl
  | cons a t ih =>
    intro hk
    obtain ⟨k1, v⟩ := a
    have ha : (k == k1) = false :=
      beq_eq_false_iff_ne.mpr (Ne.symm (hk (k1, v) (List.mem_cons_self _ t)))
    simp only [List.lookup, ha]
    exact ih (fun kv hkv => hk kv (List.mem_cons_of_mem _ hkv))

/-- Appending entries with fresh keys does not change any declared lookup. -/
theorem lookupAppendStable (e : JsonObj) (k : String) (hk : ∀ kv ∈ e, kv.1 ≠ k) :
    ∀ d : JsonObj, JsonObj.lookup (d ++ e) k = JsonObj.lookup d k := by
  intro d
  unfold JsonObj.lookup
  induction d with
  | nil =>
    simp only [List.nil_append]
    rw [lookupNoneOfNoKey k e hk]
    rfl
  | cons a t ih =>
    obtain ⟨k1, v⟩ := a
    simp only [List.cons_append, List.lookup]
    cases hkk : k == k1
    · exact ih
    · rfl

theorem reqEvent_append (d e : JsonObj) (hk : ∀ kv ∈ e, kv.1 ≠ "event") :
    reqEvent (d ++ e) = reqEvent d := by
  unfold reqEvent; rw [lookupAppendStable e "event" hk d]

theorem reqStr_append (d e : JsonObj) (k : String) (hk : ∀ kv ∈ e, kv.1 ≠ k) :
    reqStr (d ++ e) k = reqStr d k := by
  unfold reqStr; rw [lookupAppendStable e k hk d]

theorem reqInt_append (d e : JsonObj) (k : String) (hk : ∀ kv ∈ e, kv.1 ≠ k) :
    reqInt (d ++ e) k = reqInt d k := by
  unfold reqInt; rw [lookupAppendStable e k hk d]

theorem optStrD_append (d e : JsonObj) (k : String) (dflt : Option String)
    (hk : ∀ kv ∈ e, kv.1 ≠ k) : optStrD (d ++ e) k dflt = optStrD d k dflt := by
  unfold optStrD; rw [lookupAppendStable e k hk d]

theorem strD_append (d e : JsonObj) (k : String) (dflt : String)
    (hk : ∀ kv ∈ e, kv.1 ≠ k) : strD (d ++ e) k dflt = strD d k dflt := by
  unfold strD; rw [lookupAppendStable e k hk d]

theorem intD_append (d e : JsonObj) (k : String) (dflt : Int)
    (hk : ∀ kv ∈ e, kv.1 ≠ k) : intD (d ++ e) k dflt = intD d k dflt := by
  unfold intD; rw [lookupAppendStable e k hk d]

theorem listStrD_append (d e : JsonObj) (k : String) (dflt : List String)
    (hk : ∀ kv ∈ e, kv.1 ≠ k) : listStrD (d ++ e) k dflt = listStrD d k dflt := by
  unfold listStrD; rw [lookupAppendStable e k hk d]

theorem reqOptMetadata_append (d e : JsonObj) (k : String) (hk : ∀ kv ∈ e, kv.1 ≠ k) :
    reqOptMetadata (d ++ e) k = reqOptMetadata d k := by
  unfold reqOptMetadata; rw [lookupAppendStable e k hk d]

theorem reqOptWorkflowData_append (d e : JsonObj) (k : String) (hk : ∀ kv ∈ e, kv.1 ≠ k) :
    reqOptWorkflowData (d ++ e) k = reqOptWorkflowData d k := by
  unfold reqOptWorkflowData; rw [lookupAppendStable e k hk d]

/-- An undeclared key set misses every individual declared name. -/
theorem keyNe {names : List String} {e : JsonObj}
    (hk : ∀ kv ∈ e, names.contains kv.1 = false) {k : String}
    (hmem : names.contains k = true) : ∀ kv ∈ e, kv.1 ≠ k := by
  intro kv hkv heq
  have hkv1 := hk kv hkv
  rw [heq, hmem] at hkv1
  exact Bool.noConfusion hkv1

/-- The extra bucket of an extended payload is the old bucket followed by
    the added (undeclared) entries. -/
theorem extrasOutside_append (names : List String) (d e : JsonObj)
    (hk : ∀ kv ∈ e, names.contains kv.1 = false) :
    extrasOutside names (d ++ e) = extrasOutside names d ++ e := by
  unfold extrasOutside
  rw [List.filter_append]
  congr 1
  refine List.filter_eq_self.mpr ?_
  intro kv hkv
  rw [hk kv hkv]
  rfl

theorem StreamResponseT_parseCore_append (d e : JsonObj)
    (hk : ∀ kv ∈ e, StreamResponseT.fields.contains kv.1 = false) :
    StreamResponseT.parseCore (d ++ e) = StreamResponseT.parseCore d := by
  unfold StreamResponseT.parseCore
  rw [reqEvent_append d e (keyNe hk (by decide)),
      optStrD_append d e "task_id" (some "") (keyNe hk (by decide))]

theorem StreamResponseT_decode_append (d e : JsonObj)
    (hk : ∀ kv ∈ e, StreamResponseT.fields.contains kv.1 = false) :
    StreamResponseT.decode (d ++ e) =
      (StreamResponseT.decode d).map (fun m => {m with extra := m.extra ++ e}) := by
  unfold StreamResponseT.decode
  rw [StreamResponseT_parseCore_append d e hk,
      extrasOutside_append StreamResponseT.fields d e hk]
  cases StreamResponseT.parseCore d <;> rfl

theorem ErrorStreamResponseT_parseCore_append (d e : JsonObj)
    (hk : ∀ kv ∈ e, ErrorStreamResponseT.fields.contains kv.1 = false) :
    ErrorStreamResponseT.parseCore (d ++ e) = ErrorStreamResponseT.parseCore d := by
  unfold ErrorStreamResponseT.parseCore
  rw [reqEvent_append d e (keyNe hk (by decide)),
      optStrD_append d e "task_id" (some "") (keyNe hk (by decide)),
      intD_append d e "status" 500 (keyNe hk (by decide)),
      strD_append d e "code" "" (keyNe hk (by decide)),
      strD_append d e "message" "" (keyNe hk (by decide)),
      optStrD_append d e "message_id" (some "") (keyNe hk (by decide))]

theorem ErrorStreamResponseT_decode_append (d e : JsonObj)
    (hk : ∀ kv ∈ e, ErrorStreamResponseT.fields.contains kv.1 = false) :
    ErrorStreamResponseT.decode (d ++ e) =
      (ErrorStreamResponseT.decode d).map (fun m => {m with extra := m.extra ++ e}) := by
  unfold ErrorStreamResponseT.decode
  rw [ErrorStreamResponseT_parseCore_append d e hk,
      extrasOutside_append ErrorStreamResponseT.fields d e hk]
  cases ErrorStreamResponseT.parseCore d <;> rfl

theorem MessageT_parseCore_append (d e : JsonObj)
    (hk : ∀ kv ∈ e, MessageT.fields.contains kv.1 = false) :
    MessageT.parseCore (d ++ e) = MessageT.parseCore d := by
  unfold MessageT.parseCore
  rw [reqEvent_append d e (keyNe hk (by decide)),
      optStrD_append d e "task_id" (some "") (keyNe hk (by decide)),
      reqStr_append d e "message_id" (keyNe hk (by decide)),
      optStrD_append d e "conversation_id" (some "") (keyNe hk (by decide)),
      reqStr_append d e "answer" (keyNe hk (by decide)),
      reqInt_append d e "created_at" (keyNe hk (by decide))]

theorem MessageT_decode_append (d e : JsonObj)
    (hk : ∀ kv ∈ e, MessageT.fields.contains kv.1 = false) :
    MessageT.decode (d ++ e) =
      (MessageT.decode d).map (fun m => {m with extra := m.extra ++ e}) := by
  unfold MessageT.decode
  rw [MessageT_parseCore_append d e hk, extrasOutside_append MessageT.fields d e hk]
  cases MessageT.parseCore d <;> rfl

theorem MessageEndT_parseCore_append (d e : JsonObj)
    (hk : ∀ kv ∈ e, MessageEndT.fields.contains kv.1 = false) :
    MessageEndT.parseCore (d ++ e) = MessageEndT.parseCore d := by
  unfold MessageEndT.parseCore
  rw [reqEvent_append d e (keyNe hk (by decide)),
      optStrD_append d e "task_id" (some "") (keyNe hk (by decide)),
      reqStr_append d e "message_id" (keyNe hk (by decide)),
      optStrD_append d e "conversation_id" (some "") (keyNe hk (by decide)),
      reqInt_append d e "created_at" (keyNe hk (by decide)),
      reqOptMetadata_append d e "metadata" (keyNe hk (by decide))]

theorem MessageEndT_decode_append (d e : JsonObj)
    (hk : ∀ kv ∈ e, MessageEndT.fields.contains kv.1 = false) :
    MessageEndT.decode (d ++ e) =
      (MessageEndT.decode d).map (fun m => {m with extra := m.extra ++ e}) := by
  unfold MessageEndT.decode
  rw [MessageEndT_parseCore_append d e hk, extrasOutside_append MessageEndT.fields d e hk]
  cases MessageEndT.parseCore d <;> rfl

theorem AgentThoughtT_parseCore_append (d e : JsonObj)
    (hk : ∀ kv ∈ e, AgentThoughtT.fields.contains kv.1 = false) :
    AgentThoughtT.parseCore (d ++ e) = AgentThoughtT.parseCore d := by
  unfold AgentThoughtT.parseCore
  rw [reqEvent_append d e (keyNe hk (by decide)),
      optStrD_append d e "task_id" (some "") (keyNe hk (by decide)),
      reqStr_append d e "id" (keyNe hk (by decide)),
      reqStr_append d e "message_id" (keyNe hk (by decide)),
      reqStr_append d e "conversation_id" (keyNe hk (by decide)),
      reqInt_append d e "position" (keyNe hk (by decide)),
      reqStr_append d e "thought" (keyNe hk (by decide)),
      reqStr_append d e "observation" (keyNe hk (by decide)),
      reqStr_append d e "tool" (keyNe hk (by decide)),
      reqStr_append d e "tool_input" (keyNe hk (by decide)),
      listStrD_append d e "message_files" [] (keyNe hk (by decide)),
      reqInt_append d e "created_at" (keyNe hk (by decide))]

theorem AgentThoughtT_decode_append (d e : JsonObj)
    (hk : ∀ kv ∈ e, AgentThoughtT.fields.contains kv.1 = false) :
    AgentThoughtT.decode (d ++ e) =
      (AgentThoughtT.decode d).map (fun m => {m with extra := m.extra ++ e}) := by
  unfold AgentThoughtT.decode
  rw [AgentThoughtT_parseCore_append d e hk,
      extrasOutside_append AgentThoughtT.fields d e hk]
  cases AgentThoughtT.parseCore d <;> rfl

theorem MessageFileT_parseCore_append (d e : JsonObj)
    (hk : ∀ kv ∈ e, MessageFileT.fields.contains kv.1 = false) :
    MessageFileT.parseCore (d ++ e) = MessageFileT.parseCore d := by
  unfold MessageFileT.parseCore
  rw [reqEvent_append d e (keyNe hk (by decide)),
      optStrD_append d e "task_id" (some "") (keyNe hk (by decide)),
      reqStr_append d e "id" (keyNe hk (by decide)),
      reqStr_append d e "conversation_id" (keyNe hk (by decide)),
      reqStr_append d e "type" (keyNe hk (by decide)),
      reqStr_append d e "belongs_to" (keyNe hk (by decide)),
      reqStr_append d e "url" (keyNe hk (by decide))]

theorem MessageFileT_decode_append (d e : JsonObj)
    (hk : ∀ kv ∈ e, MessageFileT.fields.contains kv.1 = false) :
    MessageFileT.decode (d ++ e) =
      (MessageFileT.decode d).map (fun m => {m with extra := m.extra ++ e}) := by
  unfold MessageFileT.decode
  rw [MessageFileT_parseCore_append d e hk,
      extrasOutside_append MessageFileT.fields d e hk]
  cases MessageFileT.parseCore d <;> rfl

theorem WorkflowsT_parseCore_append (d e : JsonObj)
    (hk : ∀ kv ∈ e, WorkflowsT.fields.contains kv.1 = false) :
    WorkflowsT.parseCore (d ++ e) = WorkflowsT.parseCore d := by
  unfold WorkflowsT.parseCore
  rw [reqEvent_append d e (keyNe hk (by decide)),
      optStrD_append d e "task_id" (some "") (keyNe hk (by decide)),
      reqStr_append d e "workflow_run_id" (keyNe hk (by decide)),
      reqOptWorkflowData_append d e "data" (keyNe hk (by decide))]

theorem WorkflowsT_decode_append (d e : JsonObj)
    (hk : ∀ kv ∈ e, WorkflowsT.fields.contains kv.1 = false) :
    WorkflowsT.decode (d ++ e) =
      (WorkflowsT.decode d).map (fun m => {m with extra := m.extra ++ e}) := by
  unfold WorkflowsT.decode
  rw [WorkflowsT_parseCore_append d e hk, extrasOutside_append WorkflowsT.fields d e hk]
  cases WorkflowsT.parseCore d <;> rfl

/-- Extending a decodable payload with undeclared keys re-decodes to the
    same value with the new entries appended to the extra bucket. -/
theorem decodeAs_append (cls : RespClass) (d e : JsonObj) (r : StreamResp)
    (hd : decodeAs cls d = .ok r)
    (hk : ∀ kv ∈ e, cls.fieldNames.contains kv.1 = false) :
    decodeAs cls (d ++ e) = .ok (setExtra r (extraOf r ++ e)) := by
  cases cls <;>
    (simp only [decodeAs] at hd ⊢
     rw [map_ok_iff] at hd
     obtain ⟨v, hv, rfl⟩ := hd
     first
       | rw [StreamResponseT_decode_append d e hk]
       | rw [ErrorStreamResponseT_decode_append d e hk]
       | rw [MessageT_decode_append d e hk]
       | rw [MessageEndT_decode_append d e hk]
       | rw [AgentThoughtT_decode_append d e hk]
       | rw [MessageFileT_decode_append d e hk]
       | rw [WorkflowsT_decode_append d e hk]
     rw [hv]
     rfl)

/-- C6: adding unknown extra fields (undeclared for the dispatched shape,
    with fresh keys) to a payload that decodes never makes the builder
    fail, and the decoded event is unchanged except that it carries the
    added fields in its extra bucket. -/
theorem claim_C6 (fam : Family) (d e : JsonObj) (r : StreamResp)
    (hd : buildFor fam d = .ok r)
    (hk : ∀ kv ∈ e, ((shapeOf r).fieldNames.contains kv.1 = false) ∧
      (d.lookup kv.1).isNone = true) :
    buildFor fam (d ++ e) = .ok (setExtra r (extraOf r ++ e)) := by
  obtain ⟨t, hev⟩ : ∃ t, StreamEvent.new (.inr (d.lookup "event")) = .ok t := by
    cases fam <;>
      (simp only [buildFor, build_completion_stream_response, build_chat_stream_response,
         build_workflows_stream_response] at hd
       cases hev : StreamEvent.new (.inr (d.lookup "event")) <;> rw [hev] at hd
       · simp at hd
       · exact ⟨_, rfl⟩)
  rw [buildFor_resolved fam d t hev] at hd
  have hshape : shapeOf r = classForFam fam t := decodeAs_ok_shape _ _ _ hd
  have hallev : ∀ cls : RespClass, cls.fieldNames.contains "event" = true := by
    intro cls; cases cls <;> rfl
  have hkE : ∀ kv ∈ e, kv.1 ≠ "event" :=
    keyNe (fun kv hkv => (hk kv hkv).1) (hallev (shapeOf r))
  have hev2 : StreamEvent.new (.inr ((d ++ e).lookup "event")) = .ok t := by
    rw [lookupAppendStable e "event" hkE d]
    exact hev
  rw [buildFor_resolved fam (d ++ e) t hev2, ← hshape]
  exact decodeAs_append (shapeOf r) d e r (by rw [hshape]; exact hd)
    (fun kv hkv => (hk kv hkv).1)

theorem claim_C6_witness :
    buildFor .completion
      [("event", Json.str "message"), ("message_id", Json.str "m"),
       ("answer", Json.str "hi"), ("created_at", Json.num 7)]
      = .ok (.message ⟨.message, some "", "m", some "", "hi", 7, []⟩) ∧
    buildFor .completion
      ([("event", Json.str "message"), ("message_id", Json.str "m"),
        ("answer", Json.str "hi"), ("created_at", Json.num 7)] ++
       [("metadata_extra", Json.str "kept")])
      = .ok (setExtra (.message ⟨.message, some "", "m", some "", "hi", 7, []⟩)
          (extraOf (.message ⟨.message, some "", "m", some "", "hi", 7, []⟩) ++
           [("metadata_extra", Json.str "kept")])) :=
  ⟨rfl,
   claim_C6 .completion
     [("event", Json.str "message"), ("message_id", Json.str "m"),
      ("answer", Json.str "hi"), ("created_at", Json.num 7)]
     [("metadata_extra", Json.str "kept")]
     (.message ⟨.message, some "", "m", some "", "hi", 7, []⟩) rfl
     (by decide)⟩

/-- C3 counterexample: an event tagged error whose opaque data payload is
    the ping marker is not silently dropped; the in band error check runs
    first and raises a JSON decode failure on the unparseable payload. -/
theorem claim_C3_counterexample :
    processStream [⟨"error", SseData.text "ping"⟩] = ([], some (.jsonDecode "ping")) := rfl

/-- C3 amended: for events not tagged error, any event whose tag or raw
    data text is the ping marker is silently dropped and the survivors are
    yielded in their original relative order; the drop applies after the in
    band error check, which fires first on every error tagged event. -/
theorem claim_C3_amended :
    (∀ events : List Sse, (∀ sse ∈ events, sse.event ≠ "error") →
      processStream events =
        (events.filter (fun sse => !(IGNORED_STREAM_EVENTS.contains sse.event
            || IGNORED_STREAM_EVENTS.any (fun m => sse.data.rawEq m))), none)) ∧
    (∀ (sse : Sse) (rest : List Sse) (f : PyFailure), sse_raise_for_status sse = some f →
      processStream (sse :: rest) = ([], some f)) := by
  constructor
  · intro events
    induction events with
    | nil => intro _; rfl
    | cons sse rest ih =>
      intro hne
      have h1 : sse_raise_for_status sse = none := by
        unfold sse_raise_for_status
        rw [if_pos (hne sse (List.mem_cons_self _ _))]
      have hrest := ih (fun s hs => hne s (List.mem_cons_of_mem _ hs))
      simp only [processStream, h1]
      rw [List.filter_cons]
      cases hc : (IGNORED_STREAM_EVENTS.contains sse.event
          || IGNORED_STREAM_EVENTS.any (fun m => sse.data.rawEq m))
      · simp [hrest]
      · simp [hrest]
  · intro sse rest f hf
    simp only [processStream, hf]

theorem claim_C3_witness :
    processStream
      [⟨"message", .json (.obj [])⟩, ⟨"ping", .text "x"⟩,
       ⟨"message", .text "ping"⟩, ⟨"message_end", .json .null⟩] =
      ([⟨"message", .json (.obj [])⟩, ⟨"message_end", .json .null⟩], none) ∧
    processStream
      [⟨"error", .json (.obj [("event", Json.str "error"), ("status", Json.num 404),
                             ("code", Json.str "x"), ("message", Json.str "y")])⟩] =
      ([], some (.api ⟨.resourceNotFound, 404, "x", "y"⟩)) :=
  ⟨(claim_C3_amended.1
      [⟨"message", .json (.obj [])⟩, ⟨"ping", .text "x"⟩,
       ⟨"message", .text "ping"⟩, ⟨"message_end", .json .null⟩]
      (by decide)).trans rfl,
   claim_C3_amended.2
     ⟨"error", .json (.obj [("event", Json.str "error"), ("status", Json.num 404),
                            ("code", Json.str "x"), ("message", Json.str "y")])⟩
     [] (.api ⟨.resourceNotFound, 404, "x", "y"⟩) rfl⟩

/-- C4 counterexample: a successful response with a non event stream
    content type fails the guard and has its body read and classified, yet
    raise_for_status is a no-op on a successful response, so no typed
    failure is surfaced and the pipeline proceeds to SSE iteration. -/
theorem claim_C4_counterexample :
    _check_stream_content_type ⟨200, some "application/json", .json (.obj [])⟩ = false ∧
    request_stream ⟨200, some "application/json", .json (.obj [])⟩ [] =
      ⟨true, [], none⟩ :=
  ⟨rfl, rfl⟩

/-- C4 amended: when the guard fails (response unsuccessful, or the part of
    its content type before any semicolon lacking the text/event-stream
    marker), the body is force read and classified before any SSE event is
    touched; an unsuccessful response then surfaces a typed failure with
    nothing yielded, while a successful one surfaces no typed failure and
    the per event loop runs. -/
theorem claim_C4_amended (r : HttpxResponse) (events : List Sse)
    (h : _check_stream_content_type r = false) :
    (request_stream r events).bodyRead = true ∧
    (r.is_success = false → ∃ f, response_raise_for_status r = some f ∧
      request_stream r events = ⟨true, [], some f⟩) ∧
    (r.is_success = true →
      request_stream r events =
        ⟨true, (processStream events).1, (processStream events).2⟩) := by
  have hfail : r.is_success = false →
      ∃ f, response_raise_for_status r = some f := by
    intro hs
    unfold response_raise_for_status
    rw [hs]
    cases hb : r.body with
    | text s => exact ⟨_, rfl⟩
    | json j =>
      cases j with
      | obj fields =>
        simp only
        cases ErrorResponseT.decode
            (if (JsonObj.lookup fields "status").isNone then
              fields ++ [("status", .num r.status_code)] else fields) <;>
          exact ⟨_, rfl⟩
      | null => exact ⟨_, rfl⟩
      | bool b => exact ⟨_, rfl⟩
      | num n => exact ⟨_, rfl⟩
      | str s => exact ⟨_, rfl⟩
      | arr elems => exact ⟨_, rfl⟩
  refine ⟨?_, ?_, ?_⟩
  · unfold request_stream
    rw [h]
    simp only [Bool.false_eq_true, if_false]
    cases response_raise_for_status r <;> rfl
  · intro hs
    obtain ⟨f, hf⟩ := hfail hs
    refine ⟨f, hf, ?_⟩
    unfold request_stream
    rw [h]
    simp only [Bool.false_eq_true, if_false, hf]
  · intro hs
    have hn : response_raise_for_status r = none := by
      unfold response_raise_for_status
      rw [hs]
      rfl
    unfold request_stream
    rw [h]
    simp only [Bool.false_eq_true, if_false, hn]

theorem claim_C4_witness :
    _check_stream_content_type
      ⟨400, some "application/json",
       .json (.obj [("code", Json.str "invalid_param"), ("message", Json.str "bad")])⟩
      = false ∧
    ∃ f, response_raise_for_status
        ⟨400, some "application/json",
         .json (.obj [("code", Json.str "invalid_param"), ("message", Json.str "bad")])⟩
        = some f ∧
      request_stream
        ⟨400, some "application/json",
         .json (.obj [("code", Json.str "invalid_param"), ("message", Json.str "bad")])⟩
        [] = ⟨true, [], some f⟩ :=
  ⟨rfl,
   (claim_C4_amended
     ⟨400, some "application/json",
      .json (.obj [("code", Json.str "invalid_param"), ("message", Json.str "bad")])⟩
     [] rfl).2.1 rfl⟩
